import Mathlib

/-!
Shallow embedding of `src/weather_dashboard.py` (class `WeatherDashboard`
and its `main` driver) and verification of the specification's claims.

External effects (HTTP GET, S3 head/create/put, console prints) are
modelled as an explicit list of `Event`s; the outcomes of the external
world (HTTP response, bucket probe result, put result, wall clock) are
inputs to the embedded functions.  Caught Python exceptions are modelled
with `Except`/`Option`; exceptions that the source does not catch
(`TypeError` from subscripting a non-container) are returned as an
`Option PyErr` "uncaught" component.
-/

/-- Parsed JSON values, as returned by `response.json()`.  The program
performs no arithmetic on JSON numbers (it only interpolates them into
strings), so a number is carried as its literal rendering. -/
inductive Json where
  | null : Json
  | bool (b : Bool) : Json
  | num (lit : String) : Json
  | str (s : String) : Json
  | arr (xs : List Json) : Json
  | obj (fields : List (String × Json)) : Json

/-- Python truthiness (`if weather_data:` / `if not weather_data:`) of a
parsed JSON value.  Numeric zero is recognised through the literals the
json parser produces for it. -/
def Json.truthy : Json → Bool
  | .null => false
  | .bool b => b
  | .num lit => !(lit == "0" || lit == "0.0" || lit == "-0.0")
  | .str s => !(s == "")
  | .arr xs => !xs.isEmpty
  | .obj fs => !fs.isEmpty

/-- Truthiness of `Optional` values: Python `None` is falsy. -/
def optTruthy : Option Json → Bool
  | none => false
  | some j => j.truthy

/-- Python exceptions relevant to the program that are not `ClientError`
or `RequestException` (those two are modelled structurally where they
can occur). -/
inductive PyErr where
  | keyError : PyErr
  | indexError : PyErr
  | typeError : PyErr
deriving DecidableEq

/-- Python dict assignment `d[k] = v`: replace the value in place if the
key is present, otherwise append the new binding. -/
def setAssoc : List (String × Json) → String → Json → List (String × Json)
  | [], k, v => [(k, v)]
  | (k0, v0) :: rest, k, v =>
      if k0 = k then (k, v) :: rest else (k0, v0) :: setAssoc rest k v

/-- Python `d[k] = v` on a JSON value: only dicts support string-key
assignment; everything else raises `TypeError`. -/
def Json.setItem : Json → String → Json → Except PyErr Json
  | .obj fs, k, v => Except.ok (Json.obj (setAssoc fs k v))
  | _, _, _ => Except.error PyErr.typeError

/-- Python `x[k]` with a string key: dicts raise `KeyError` when the key
is absent; lists, strings and scalars raise `TypeError`. -/
def Json.getItem : Json → String → Except PyErr Json
  | .obj fs, k =>
      match fs.lookup k with
      | some v => Except.ok v
      | none => Except.error PyErr.keyError
  | _, _ => Except.error PyErr.typeError

/-- Python `x[i]` with an integer index: lists raise `IndexError` out of
range; a string yields its `i`-th character as a 1-character string;
dicts raise `KeyError` (the integer is just an absent key); scalars
raise `TypeError`. -/
def Json.getIdx : Json → Nat → Except PyErr Json
  | .arr xs, i =>
      match xs.get? i with
      | some v => Except.ok v
      | none => Except.error PyErr.indexError
  | .obj _, _ => Except.error PyErr.keyError
  | .str s, i =>
      match s.data.get? i with
      | some c => Except.ok (Json.str (String.mk [c]))
      | none => Except.error PyErr.indexError
  | _, _ => Except.error PyErr.typeError

/-- A single-quote character, used when rendering Python messages and
`repr` output. -/
def pyQuote : String := String.mk [Char.ofNat 39]

mutual

/-- `json.dumps` with default separators.  String escaping of special
characters is not modelled (no string the program serialises needs it). -/
def Json.dumps : Json → String
  | .null => "null"
  | .bool true => "true"
  | .bool false => "false"
  | .num lit => lit
  | .str s => "\"" ++ s ++ "\""
  | .arr xs => "[" ++ dumpsList xs ++ "]"
  | .obj fs => "\x7b" ++ dumpsFields fs ++ "\x7d"

/-- Comma-separated serialisation of a JSON array's elements. -/
def dumpsList : List Json → String
  | [] => ""
  | [x] => Json.dumps x
  | x :: y :: xs => Json.dumps x ++ ", " ++ dumpsList (y :: xs)

/-- Comma-separated serialisation of a JSON object's fields. -/
def dumpsFields : List (String × Json) → String
  | [] => ""
  | [(k, v)] => "\"" ++ k ++ "\": " ++ Json.dumps v
  | (k, v) :: p :: fs =>
      "\"" ++ k ++ "\": " ++ Json.dumps v ++ ", " ++ dumpsFields (p :: fs)

end

mutual

/-- Python `repr` of a parsed JSON value (dict/list rendering uses
single-quoted strings). -/
def Json.pyRepr : Json → String
  | .null => "None"
  | .bool true => "True"
  | .bool false => "False"
  | .num lit => lit
  | .str s => pyQuote ++ s ++ pyQuote
  | .arr xs => "[" ++ pyReprList xs ++ "]"
  | .obj fs => "\x7b" ++ pyReprFields fs ++ "\x7d"

/-- Comma-separated `repr` of a list's elements. -/
def pyReprList : List Json → String
  | [] => ""
  | [x] => Json.pyRepr x
  | x :: y :: xs => Json.pyRepr x ++ ", " ++ pyReprList (y :: xs)

/-- Comma-separated `repr` of a dict's items. -/
def pyReprFields : List (String × Json) → String
  | [] => ""
  | [(k, v)] => pyQuote ++ k ++ pyQuote ++ ": " ++ Json.pyRepr v
  | (k, v) :: p :: fs =>
      pyQuote ++ k ++ pyQuote ++ ": " ++ Json.pyRepr v ++ ", " ++ pyReprFields (p :: fs)

end

/-- Python `str` of a parsed JSON value, as used by f-string
interpolation: strings render bare, everything else as `repr`. -/
def Json.pyStr : Json → String
  | .str s => s
  | j => j.pyRepr

/-- The wall-clock reading taken by `datetime.now()`. -/
structure DateTime where
  year : Nat
  month : Nat
  day : Nat
  hour : Nat
  minute : Nat
  second : Nat

/-- The character for decimal digit `n % 10`. -/
def digitChar (n : Nat) : Char := Char.ofNat (48 + n % 10)

/-- Two-digit zero-padded decimal rendering (faithful for `n < 100`,
which holds for every calendar field). -/
def pad2 (n : Nat) : List Char := [digitChar (n / 10), digitChar n]

/-- Four-digit zero-padded decimal rendering (faithful for
`1000 ≤ n < 10000`, which holds for `datetime.now().year`). -/
def pad4 (n : Nat) : List Char :=
  [digitChar (n / 1000), digitChar (n / 100), digitChar (n / 10), digitChar n]

/-- `datetime.now().strftime('%Y%m%d-%H%M%S')`. -/
def strftimeYmdHMS (t : DateTime) : String :=
  String.mk (pad4 t.year ++ pad2 t.month ++ pad2 t.day ++ [Char.ofNat 45] ++
    pad2 t.hour ++ pad2 t.minute ++ pad2 t.second)

/-- Does a string match the pattern `YYYYMMDD-HHMMSS`: eight decimal
digits, a hyphen, six decimal digits? -/
def matchesTimestampPattern (s : String) : Bool :=
  match s.data with
  | [a, b, c, d, e, f, g, h, dash, p, q, r, u, v, w] =>
      a.isDigit && b.isDigit && c.isDigit && d.isDigit &&
      e.isDigit && f.isDigit && g.isDigit && h.isDigit &&
      (dash == Char.ofNat 45) &&
      p.isDigit && q.isDigit && r.isDigit && u.isDigit && v.isDigit && w.isDigit
  | _ => false

theorem digitChar_isDigit (n : Nat) : (digitChar n).isDigit = true := by
  unfold digitChar
  have h : n % 10 < 10 := Nat.mod_lt _ (by decide)
  set k := n % 10 with hk
  interval_cases k <;> rfl

theorem timestamp_matches_pattern (t : DateTime) :
    matchesTimestampPattern (strftimeYmdHMS t) = true := by
  simp [strftimeYmdHMS, matchesTimestampPattern, pad4, pad2, digitChar_isDigit]

/-- Observable external effects of a run: console prints, the HTTP GET,
and the S3 calls (`head_bucket`, `create_bucket` in its plain and
region-constrained forms, `put_object`). -/
inductive Event where
  | print (line : String) : Event
  | httpGet (url : String) (params : List (String × String)) : Event
  | headBucket (bucket : String) : Event
  | createBucketPlain (bucket : String) : Event
  | createBucketConstrained (bucket : String) (region : String) : Event
  | putObject (bucket : String) (key : String) (body : String) (contentType : String) : Event

/-- Is this event a `put_object` storage write? -/
def isPut : Event → Bool
  | .putObject _ _ _ _ => true
  | _ => false

/-- Is this event a `create_bucket` call (either form)? -/
def isCreateCall : Event → Bool
  | .createBucketPlain _ => true
  | .createBucketConstrained _ _ => true
  | _ => false

/-- Number of `create_bucket` calls in a trace. -/
def createCount (es : List Event) : Nat := (es.filter isCreateCall).length

/-- Is this event the structural-mismatch log line
`Unexpected response structure for ...`? -/
def isStructMismatch : Event → Bool
  | .print s => List.isPrefixOf ("Unexpected response structure").data s.data
  | _ => false

/-- The configuration held by a successfully constructed
`WeatherDashboard` (its `api_key` / `bucket_name` attributes). -/
structure Config where
  api_key : String
  bucket_name : String

/-- `WeatherDashboard.__init__`: read the two environment variables
(`os.getenv` yields `None` when unset, modelled as `Option.none`), and
raise `ValueError` if either value is falsy (absent or empty). -/
def dashboardInit (envApi envBucket : Option String) : Except String Config :=
  let api_key := envApi.getD ("")
  let bucket_name := envBucket.getD ("")
  if api_key = "" then
    Except.error ("Environment variable " ++ pyQuote ++ "OPENWEATHER_API_KEY" ++ pyQuote ++ " is not set.")
  else if bucket_name = "" then
    Except.error ("Environment variable " ++ pyQuote ++ "AWS_BUCKET_NAME" ++ pyQuote ++ " is not set.")
  else
    Except.ok (Config.mk api_key bucket_name)

/-- Outcome of the `head_bucket` probe: success, or a `ClientError`
carrying its error code (`'404'` means the bucket was not found). -/
inductive ProbeResult where
  | ok : ProbeResult
  | clientError (code : String) : ProbeResult

/-- `WeatherDashboard.create_bucket_if_not_exists`.  `ambientRegion` is
`boto3.session.Session().region_name` (`None` when no region is
configured; Python's `or 'us-east-1'` also replaces an empty string).
`createRes` is the outcome the storage service would give the
`create_bucket` call. -/
def create_bucket_if_not_exists (bucket : String) (probe : ProbeResult)
    (ambientRegion : Option String) (createRes : Except String Unit) : List Event :=
  match probe with
  | .ok =>
      [Event.headBucket bucket,
       Event.print ("Bucket " ++ pyQuote ++ bucket ++ pyQuote ++ " exists.")]
  | .clientError code =>
      if code = "404" then
        let region :=
          match ambientRegion with
          | none => "us-east-1"
          | some r => if r = "" then "us-east-1" else r
        let createCall :=
          if region = "us-east-1" then Event.createBucketPlain bucket
          else Event.createBucketConstrained bucket region
        let tail :=
          match createRes with
          | .ok _ =>
              [Event.print ("Bucket " ++ pyQuote ++ bucket ++ pyQuote ++ " created successfully.")]
          | .error msg => [Event.print ("Error creating bucket: " ++ msg)]
        Event.headBucket bucket ::
          Event.print ("Bucket " ++ pyQuote ++ bucket ++ pyQuote ++ " does not exist. Creating it now...") ::
          createCall :: tail
      else
        [Event.headBucket bucket,
         Event.print ("Error accessing bucket: " ++ code)]

/-- What the HTTP layer did for one `requests.get` call: a raised
`RequestException` (connection error, timeout, ...), or a response with
a status code and parsed JSON body. -/
inductive HttpResult where
  | transportError (msg : String) : HttpResult
  | response (status : Nat) (body : Json) : HttpResult

/-- The OpenWeather endpoint used by `fetch_weather`. -/
def base_url : String := "http://api.openweathermap.org/data/2.5/weather"

/-- `response.raise_for_status()` from `requests`: raises `HTTPError`
(a `RequestException`) exactly for status codes in `[400, 500)` (client
error) and `[500, 600)` (server error). -/
def raise_for_status (status : Nat) : Except String Unit :=
  if 400 ≤ status ∧ status < 500 then
    Except.error (toString status ++ " Client Error")
  else if 500 ≤ status ∧ status < 600 then
    Except.error (toString status ++ " Server Error")
  else
    Except.ok ()

/-- `WeatherDashboard.fetch_weather`: one GET; any `RequestException`
(transport failure, or `HTTPError` from `raise_for_status`) is caught,
reported and turned into `None`; otherwise the parsed body is returned. -/
def fetch_weather (api_key : String) (http : HttpResult) (city : String) :
    Option Json × List Event :=
  let params := [("q", city), ("appid", api_key), ("units", "imperial")]
  let getEvent := Event.httpGet base_url params
  match http with
  | .transportError msg =>
      (none, [getEvent, Event.print ("Error fetching weather data for " ++ city ++ ": " ++ msg)])
  | .response status body =>
      match raise_for_status status with
      | .error msg =>
          (none, [getEvent, Event.print ("Error fetching weather data for " ++ city ++ ": " ++ msg)])
      | .ok _ => (some body, [getEvent])

/-- Result of `WeatherDashboard.save_to_s3`: the returned boolean, the
reading as the caller sees it afterwards (the dict is mutated in
place), the emitted events, and an uncaught exception if any. -/
structure SaveResult where
  success : Bool
  reading : Option Json
  events : List Event
  uncaught : Option PyErr

/-- `WeatherDashboard.save_to_s3`.  `putRes` is the outcome the storage
service would give the `put_object` call (`ClientError` message on
failure); `now` is the wall clock at the moment of the call. -/
def save_to_s3 (bucket : String) (now : DateTime) (putRes : Except String Unit)
    (weather_data : Option Json) (city : String) : SaveResult :=
  if optTruthy weather_data = false then
    SaveResult.mk false weather_data
      [Event.print ("No weather data to save for " ++ city ++ ".")] none
  else
    let timestamp := strftimeYmdHMS now
    let file_name := "weather-data/" ++ city ++ "-" ++ timestamp ++ ".json"
    match weather_data with
    | none => SaveResult.mk false none [] (some PyErr.typeError)
    | some w =>
        match w.setItem ("timestamp") (Json.str timestamp) with
        | .error e => SaveResult.mk false (some w) [] (some e)
        | .ok w2 =>
            let putCall := Event.putObject bucket file_name w2.dumps ("application/json")
            match putRes with
            | .ok _ =>
                SaveResult.mk true (some w2)
                  [putCall,
                   Event.print ("Weather data for " ++ city ++ " saved to S3 as " ++
                     pyQuote ++ file_name ++ pyQuote ++ ".")] none
            | .error msg =>
                SaveResult.mk false (some w2)
                  [putCall, Event.print ("Error saving weather data to S3: " ++ msg)] none

/-- The `weather_data['weather'][0]['description']` extraction from
`main`'s try block. -/
def descOf (w : Json) : Except PyErr Json := do
  let a ← w.getItem ("weather")
  let b ← a.getIdx 0
  b.getItem ("description")

/-- The body of `main`'s try block: bind `main_info`, bind
`weather_description`, then the four prints (each subscript can raise,
so prints already issued before a failing subscript are kept).  Returns
the emitted prints and the exception that escaped the block, if any. -/
def displayWeather (w : Json) : List Event × Option PyErr :=
  match w.getItem ("main") with
  | .error e => ([], some e)
  | .ok main_info =>
      match descOf w with
      | .error e => ([], some e)
      | .ok weather_description =>
          match main_info.getItem ("temp") with
          | .error e => ([], some e)
          | .ok t =>
              let e1 := Event.print ("Temperature: " ++ t.pyStr ++ "°F")
              match main_info.getItem ("feels_like") with
              | .error e => ([e1], some e)
              | .ok fl =>
                  let e2 := Event.print ("Feels like: " ++ fl.pyStr ++ "°F")
                  match main_info.getItem ("humidity") with
                  | .error e => ([e1, e2], some e)
                  | .ok hm =>
                      let e3 := Event.print ("Humidity: " ++ hm.pyStr ++ "%")
                      let e4 := Event.print ("Conditions: " ++ weather_description.pyStr)
                      ([e1, e2, e3, e4], none)

/-- The external-world outcomes one iteration of the per-city loop can
observe: the HTTP layer's behaviour, the `put_object` outcome, and the
wall clock at the `save_to_s3` call. -/
structure CityEnv where
  http : HttpResult
  putRes : Except String Unit
  now : DateTime

/-- One iteration of `main`'s per-city loop.  The `try` block catches
`KeyError` and `IndexError` (printing the structural-mismatch line and
continuing); a `TypeError` from subscripting a non-dict body escapes
uncaught.  Returns the iteration's trace and any uncaught exception. -/
def processCity (bucket api_key : String) (env : CityEnv) (city : String) :
    List Event × Option PyErr :=
  let header := Event.print ("\nFetching weather data for " ++ city ++ "...")
  let fr := fetch_weather api_key env.http city
  match fr.1 with
  | some w =>
      if w.truthy then
        let d := displayWeather w
        match d.2 with
        | none =>
            let s := save_to_s3 bucket env.now env.putRes (some w) city
            (header :: fr.2 ++ d.1 ++ s.events, s.uncaught)
        | some PyErr.keyError =>
            (header :: fr.2 ++ d.1 ++
              [Event.print ("Unexpected response structure for " ++ city ++ ": " ++ w.pyRepr)],
             none)
        | some PyErr.indexError =>
            (header :: fr.2 ++ d.1 ++
              [Event.print ("Unexpected response structure for " ++ city ++ ": " ++ w.pyRepr)],
             none)
        | some PyErr.typeError => (header :: fr.2 ++ d.1, some PyErr.typeError)
      else
        (header :: fr.2 ++ [Event.print ("Failed to fetch weather data for " ++ city ++ ".")], none)
  | none =>
      (header :: fr.2 ++ [Event.print ("Failed to fetch weather data for " ++ city ++ ".")], none)

/-- The fixed city list of `main`. -/
def cities : List String := ["Atlanta", "San Diego", "Bahia"]

/-- The per-city loop over a list of cities paired with their observed
environments; an uncaught exception aborts the remaining iterations. -/
def runCities (bucket api_key : String) : List (String × CityEnv) → List Event × Option PyErr
  | [] => ([], none)
  | (city, env) :: rest =>
      let p := processCity bucket api_key env city
      match p.2 with
      | some e => (p.1, some e)
      | none =>
          let r := runCities bucket api_key rest
          (p.1 ++ r.1, r.2)

/-- Everything the external world decides about one program run. -/
structure RunEnv where
  envApi : Option String
  envBucket : Option String
  probe : ProbeResult
  ambientRegion : Option String
  createRes : Except String Unit
  cityEnvs : List CityEnv

/-- How a run of `main` ends. -/
inductive Outcome where
  | completed : Outcome
  | configError (msg : String) : Outcome
  | uncaught (e : PyErr) : Outcome

/-- `main`: construct the dashboard (a `ValueError` from `__init__`
halts everything before any network or storage call), ensure the
bucket, then run the per-city loop over the fixed list. -/
def mainRun (R : RunEnv) : List Event × Outcome :=
  match dashboardInit R.envApi R.envBucket with
  | .error msg => ([], Outcome.configError msg)
  | .ok cfg =>
      let b := create_bucket_if_not_exists cfg.bucket_name R.probe R.ambientRegion R.createRes
      let c := runCities cfg.bucket_name cfg.api_key (cities.zip R.cityEnvs)
      (b ++ c.1,
       match c.2 with
       | some e => Outcome.uncaught e
       | none => Outcome.completed)

theorem setAssoc_lookup_self (fs : List (String × Json)) (k : String) (v : Json) :
    (setAssoc fs k v).lookup k = some v := by
  induction fs with
  | nil => simp [setAssoc, List.lookup]
  | cons p rest ih =>
      rcases p with ⟨k0, v0⟩
      by_cases hk : k0 = k
      · subst hk; simp [setAssoc, List.lookup]
      · have hne : (k == k0) = false := beq_eq_false_iff_ne.mpr (fun hkk => hk hkk.symm)
        simp [setAssoc, hk, List.lookup, ih, hne]

/-- Claim C1: for every non-empty weather reading and city, a successful
`save_to_s3` call injects a `timestamp` field matching `YYYYMMDD-HHMMSS`
into the reading, performs exactly one `put_object` to key
`weather-data/{city}-{timestamp}.json` (the same timestamp value, taken
once at call time) with the serialized updated reading as body and
content-type `application/json`, and returns `true`. -/
theorem save_to_s3_success_spec (bucket city : String) (now : DateTime)
    (fields : List (String × Json)) (h : fields ≠ []) :
    (save_to_s3 bucket now (Except.ok ()) (some (Json.obj fields)) city).success = true
    ∧ (save_to_s3 bucket now (Except.ok ()) (some (Json.obj fields)) city).reading
        = some (Json.obj (setAssoc fields ("timestamp") (Json.str (strftimeYmdHMS now))))
    ∧ (setAssoc fields ("timestamp") (Json.str (strftimeYmdHMS now))).lookup ("timestamp")
        = some (Json.str (strftimeYmdHMS now))
    ∧ matchesTimestampPattern (strftimeYmdHMS now) = true
    ∧ ((save_to_s3 bucket now (Except.ok ()) (some (Json.obj fields)) city).events.filter isPut)
        = [Event.putObject bucket
            ("weather-data/" ++ city ++ "-" ++ strftimeYmdHMS now ++ ".json")
            (Json.dumps (Json.obj (setAssoc fields ("timestamp") (Json.str (strftimeYmdHMS now)))))
            ("application/json")] := by
  rcases fields with _ | ⟨f, fs⟩
  · exact absurd rfl h
  · exact ⟨rfl, rfl, setAssoc_lookup_self _ _ _, timestamp_matches_pattern now, rfl⟩

theorem save_to_s3_success_spec_witness :
    (([(("cod" : String), Json.num ("200"))] : List (String × Json)) ≠ [])
    ∧ (save_to_s3 ("b") (DateTime.mk 2026 10 12 3 4 5) (Except.ok ())
        (some (Json.obj [(("cod" : String), Json.num ("200"))])) ("Atlanta")).success = true :=
  ⟨List.cons_ne_nil _ _,
   (save_to_s3_success_spec ("b") ("Atlanta") (DateTime.mk 2026 10 12 3 4 5)
      [(("cod" : String), Json.num ("200"))] (List.cons_ne_nil _ _)).1⟩

/-- Claim C5: for every city, `save_to_s3` called with an absent
(`None`) or empty (`\x7b\x7d`) reading returns `false` and performs no
storage write (its whole trace is the one report line). -/
theorem save_to_s3_empty_no_write (bucket city : String) (now : DateTime)
    (putRes : Except String Unit) (wd : Option Json)
    (h : wd = none ∨ wd = some (Json.obj [])) :
    (save_to_s3 bucket now putRes wd city).success = false
    ∧ (save_to_s3 bucket now putRes wd city).events.filter isPut = []
    ∧ (save_to_s3 bucket now putRes wd city).events
        = [Event.print ("No weather data to save for " ++ city ++ ".")] := by
  rcases h with h | h <;> subst h <;> exact ⟨rfl, rfl, rfl⟩

theorem save_to_s3_empty_no_write_witness :
    ((none : Option Json) = none ∨ (none : Option Json) = some (Json.obj []))
    ∧ (save_to_s3 ("b") (DateTime.mk 2026 10 12 3 4 5) (Except.ok ()) none ("Atlanta")).success
        = false :=
  ⟨Or.inl rfl,
   (save_to_s3_empty_no_write ("b") ("Atlanta") (DateTime.mk 2026 10 12 3 4 5) (Except.ok ())
      none (Or.inl rfl)).1⟩

/-- Claim C10: for every non-empty reading, `save_to_s3` mutates the
caller's reading in place, setting (and overwriting if present) the
`timestamp` key; the body of the attempted write is the serialization
of the already-mutated reading; and when the write fails the call
returns `false` while the mutation persists. -/
theorem save_to_s3_mutates_reading (bucket city : String) (now : DateTime)
    (putRes : Except String Unit) (fields : List (String × Json)) (h : fields ≠ []) :
    (save_to_s3 bucket now putRes (some (Json.obj fields)) city).reading
      = some (Json.obj (setAssoc fields ("timestamp") (Json.str (strftimeYmdHMS now))))
    ∧ (setAssoc fields ("timestamp") (Json.str (strftimeYmdHMS now))).lookup ("timestamp")
      = some (Json.str (strftimeYmdHMS now))
    ∧ (∀ e ∈ (save_to_s3 bucket now putRes (some (Json.obj fields)) city).events,
        isPut e = true →
        e = Event.putObject bucket
              ("weather-data/" ++ city ++ "-" ++ strftimeYmdHMS now ++ ".json")
              (Json.dumps (Json.obj (setAssoc fields ("timestamp") (Json.str (strftimeYmdHMS now)))))
              ("application/json"))
    ∧ (∀ msg, putRes = Except.error msg →
        (save_to_s3 bucket now putRes (some (Json.obj fields)) city).success = false) := by
  rcases fields with _ | ⟨f, fs⟩
  · exact absurd rfl h
  · rcases putRes with msg | u
    · refine ⟨rfl, setAssoc_lookup_self _ _ _, ?_, ?_⟩
      · intro e he hput
        rcases he with _ | ⟨_, he⟩
        · rfl
        · rcases he with _ | ⟨_, he⟩
          · exact absurd hput (by simp [isPut])
          · cases he
      · intro m hm; rfl
    · refine ⟨rfl, setAssoc_lookup_self _ _ _, ?_, ?_⟩
      · intro e he hput
        rcases he with _ | ⟨_, he⟩
        · rfl
        · rcases he with _ | ⟨_, he⟩
          · exact absurd hput (by simp [isPut])
          · cases he
      · intro m hm; exact Except.noConfusion hm

theorem save_to_s3_mutates_reading_witness :
    (([(("timestamp" : String), Json.str ("old"))] : List (String × Json)) ≠ [])
    ∧ (save_to_s3 ("b") (DateTime.mk 2026 10 12 3 4 5) (Except.error ("denied"))
        (some (Json.obj [(("timestamp" : String), Json.str ("old"))])) ("Atlanta")).reading
      = some (Json.obj (setAssoc [(("timestamp" : String), Json.str ("old"))] ("timestamp")
          (Json.str (strftimeYmdHMS (DateTime.mk 2026 10 12 3 4 5))))) :=
  ⟨List.cons_ne_nil _ _,
   (save_to_s3_mutates_reading ("b") ("Atlanta") (DateTime.mk 2026 10 12 3 4 5)
      (Except.error ("denied")) [(("timestamp" : String), Json.str ("old"))]
      (List.cons_ne_nil _ _)).1⟩

/-- Claim C3: `create_bucket_if_not_exists` makes exactly one
`create_bucket` call when the probe reports 404, zero when the probe
succeeds, zero when the probe fails with any other error code; in the
latter case the run continues: `main` still proceeds to the per-city
loop after the bucket step. -/
theorem bucket_probe_create_calls (bucket code : String) (reg : Option String)
    (createRes : Except String Unit) (h : code ≠ "404") :
    createCount (create_bucket_if_not_exists bucket (ProbeResult.clientError ("404")) reg createRes) = 1
    ∧ createCount (create_bucket_if_not_exists bucket ProbeResult.ok reg createRes) = 0
    ∧ createCount (create_bucket_if_not_exists bucket (ProbeResult.clientError code) reg createRes) = 0
    ∧ ∀ (R : RunEnv) (cfg : Config), R.probe = ProbeResult.clientError code →
        dashboardInit R.envApi R.envBucket = Except.ok cfg →
        (mainRun R).1
          = create_bucket_if_not_exists cfg.bucket_name R.probe R.ambientRegion R.createRes
            ++ (runCities cfg.bucket_name cfg.api_key (cities.zip R.cityEnvs)).1 := by
  refine ⟨?_, ?_, ?_, ?_⟩
  · rcases reg with _ | r
    · rcases createRes with m | u <;> rfl
    · rcases createRes with m | u <;>
        by_cases hr : r = "" <;> by_cases h1 : r = "us-east-1" <;>
        simp [create_bucket_if_not_exists, createCount, isCreateCall, hr, h1]
  · rfl
  · simp [create_bucket_if_not_exists, h, createCount, isCreateCall]
  · intro R cfg hp hinit
    simp [mainRun, hinit]

theorem bucket_probe_create_calls_witness :
    (("403" : String) ≠ "404")
    ∧ createCount (create_bucket_if_not_exists ("b") (ProbeResult.clientError ("404")) none
        (Except.ok ())) = 1 :=
  ⟨by decide,
   (bucket_probe_create_calls ("b") ("403") none (Except.ok ()) (by decide)).1⟩

/-- Claim C8: when the probe reports 404, the bucket is created with the
region-constrained `create_bucket` form exactly when the ambient region
is not `us-east-1` (the provider's default region), and with the plain
form when it is. -/
theorem bucket_create_region_form (bucket r : String) (createRes : Except String Unit)
    (h : r ≠ "") :
    (r ≠ "us-east-1" →
      (create_bucket_if_not_exists bucket (ProbeResult.clientError ("404")) (some r) createRes).filter isCreateCall
        = [Event.createBucketConstrained bucket r])
    ∧ (r = "us-east-1" →
      (create_bucket_if_not_exists bucket (ProbeResult.clientError ("404")) (some r) createRes).filter isCreateCall
        = [Event.createBucketPlain bucket]) := by
  constructor
  · intro hne
    rcases createRes with m | u <;> simp [create_bucket_if_not_exists, h, hne, isCreateCall]
  · intro heq
    subst heq
    rcases createRes with m | u <;> simp [create_bucket_if_not_exists, isCreateCall]

theorem bucket_create_region_form_witness :
    (("eu-west-1" : String) ≠ "")
    ∧ (("eu-west-1" : String) ≠ "us-east-1" →
      (create_bucket_if_not_exists ("b") (ProbeResult.clientError ("404")) (some ("eu-west-1"))
          (Except.ok ())).filter isCreateCall
        = [Event.createBucketConstrained ("b") ("eu-west-1")]) :=
  ⟨by decide,
   (bucket_create_region_form ("b") ("eu-west-1") (Except.ok ()) (by decide)).1⟩

/-- Claim C6: if either required environment variable is unset or empty,
construction raises a configuration `ValueError` and the run performs no
external call at all (its trace is empty); no defaults are substituted. -/
theorem config_error_failfast (R : RunEnv)
    (h : R.envApi = none ∨ R.envApi = some "" ∨ R.envBucket = none ∨ R.envBucket = some "") :
    (∃ msg, (mainRun R).2 = Outcome.configError msg) ∧ (mainRun R).1 = [] := by
  have hinit : ∃ msg, dashboardInit R.envApi R.envBucket = Except.error msg := by
    rcases h with h | h | h | h
    · simp [dashboardInit, h]
    · simp [dashboardInit, h]
    · by_cases ha : R.envApi.getD ("") = "" <;> simp [dashboardInit, h, ha]
    · by_cases ha : R.envApi.getD ("") = "" <;> simp [dashboardInit, h, ha]
  rcases hinit with ⟨msg, hmsg⟩
  exact ⟨⟨msg, by simp [mainRun, hmsg]⟩, by simp [mainRun, hmsg]⟩

theorem config_error_failfast_witness :
    ((RunEnv.mk none (some ("b")) ProbeResult.ok none (Except.ok ()) []).envApi = none
      ∨ (RunEnv.mk none (some ("b")) ProbeResult.ok none (Except.ok ()) []).envApi = some ""
      ∨ (RunEnv.mk none (some ("b")) ProbeResult.ok none (Except.ok ()) []).envBucket = none
      ∨ (RunEnv.mk none (some ("b")) ProbeResult.ok none (Except.ok ()) []).envBucket = some "")
    ∧ (mainRun (RunEnv.mk none (some ("b")) ProbeResult.ok none (Except.ok ()) [])).1 = [] :=
  ⟨Or.inl rfl,
   (config_error_failfast (RunEnv.mk none (some ("b")) ProbeResult.ok none (Except.ok ())
      []) (Or.inl rfl)).2⟩

/-- Claim C2 counterexample: HTTP status 600 satisfies `status ≥ 400`,
yet `fetch_weather` returns the parsed body rather than `None`, because
`requests`' `raise_for_status` only raises for statuses in `[400, 600)`. -/
theorem fetch_weather_status600_counterexample :
    400 ≤ 600
    ∧ (fetch_weather ("k")
        (HttpResult.response 600 (Json.obj [(("cod" : String), Json.num ("600"))]))
        ("Atlanta")).1
      = some (Json.obj [(("cod" : String), Json.num ("600"))]) :=
  ⟨by decide, rfl⟩

/-- Claim C2 (amended): `fetch_weather` returns `None` (raising nothing
past the call) for any transport failure and for any HTTP status in
`[400, 600)` — the statuses `raise_for_status` treats as errors; for
every other status (below 400, or 600 and above) it returns the parsed
JSON body unchanged. -/
theorem fetch_weather_no_data_spec (api_key city msg : String) (st : Nat) (body : Json) :
    (fetch_weather api_key (HttpResult.transportError msg) city).1 = none
    ∧ (400 ≤ st → st < 600 → (fetch_weather api_key (HttpResult.response st body) city).1 = none)
    ∧ (st < 400 ∨ 600 ≤ st → (fetch_weather api_key (HttpResult.response st body) city).1 = some body) := by
  refine ⟨rfl, ?_, ?_⟩
  · intro h1 h2
    by_cases hc : st < 500
    · simp [fetch_weather, raise_for_status, h1, hc]
    · have h5 : 500 ≤ st := by omega
      have hno : ¬(400 ≤ st ∧ st < 500) := by omega
      simp [fetch_weather, raise_for_status, hno, h5, h2]
  · intro h
    have h1 : ¬(400 ≤ st ∧ st < 500) := by omega
    have h2 : ¬(500 ≤ st ∧ st < 600) := by omega
    simp [fetch_weather, raise_for_status, h1, h2]

theorem fetch_weather_no_data_spec_witness :
    400 ≤ 404
    ∧ (fetch_weather ("k") (HttpResult.response 404 Json.null) ("Atlanta")).1 = none :=
  ⟨by decide,
   (fetch_weather_no_data_spec ("k") ("Atlanta") ("boom") 404 Json.null).2.1 (by decide) (by decide)⟩

theorem fetch_events_no_put (api_key city : String) (http : HttpResult) :
    ∀ e ∈ (fetch_weather api_key http city).2, isPut e = false := by
  intro e he
  rcases http with msg | ⟨st, body⟩
  · simp [fetch_weather] at he
    rcases he with rfl | rfl <;> rfl
  · rcases hr : raise_for_status st with m | u <;> simp [fetch_weather, hr] at he
    · rcases he with rfl | rfl <;> rfl
    · subst he; rfl

theorem displayWeather_no_put (w : Json) : ∀ e ∈ (displayWeather w).1, isPut e = false := by
  intro e he
  unfold displayWeather at he
  rcases hm : w.getItem ("main") with em | mi <;> rw [hm] at he <;> dsimp only at he
  · simp at he
  · rcases hd : descOf w with ed | d <;> rw [hd] at he <;> dsimp only at he
    · simp at he
    · rcases ht : mi.getItem ("temp") with et | t <;> rw [ht] at he <;> dsimp only at he
      · simp at he
      · rcases hf : mi.getItem ("feels_like") with ef | f <;> rw [hf] at he <;> dsimp only at he
        · simp at he
          subst he; rfl
        · rcases hh : mi.getItem ("humidity") with eh | hum <;> rw [hh] at he <;> dsimp only at he
          · simp at he
            rcases he with rfl | rfl <;> rfl
          · simp at he
            rcases he with rfl | rfl | rfl | rfl <;> rfl

theorem save_events_put_key (bucket city : String) (now : DateTime)
    (putRes : Except String Unit) (wd : Option Json) :
    ∀ e ∈ (save_to_s3 bucket now putRes wd city).events, isPut e = true →
      ∃ body, e = Event.putObject bucket
          ("weather-data/" ++ city ++ "-" ++ strftimeYmdHMS now ++ ".json") body
          ("application/json") := by
  intro e he hput
  unfold save_to_s3 at he
  by_cases htr : optTruthy wd = false
  · simp [htr] at he
    subst he
    simp [isPut] at hput
  · simp [htr] at he
    rcases wd with _ | w <;> dsimp only at he
    · simp at he
    · rcases hs : w.setItem ("timestamp") (Json.str (strftimeYmdHMS now)) with es | w2 <;>
        rw [hs] at he <;> dsimp only at he
      · simp at he
      · rcases putRes with m | u <;> dsimp only at he <;> simp at he <;>
          rcases he with rfl | rfl
        · exact ⟨w2.dumps, rfl⟩
        · simp [isPut] at hput
        · exact ⟨w2.dumps, rfl⟩
        · simp [isPut] at hput

theorem processCity_put_key (bucket api_key : String) (env : CityEnv) (city : String) :
    ∀ e ∈ (processCity bucket api_key env city).1, isPut e = true →
      ∃ body, e = Event.putObject bucket
          ("weather-data/" ++ city ++ "-" ++ strftimeYmdHMS env.now ++ ".json") body
          ("application/json") := by
  intro e he hput
  simp only [processCity] at he
  rcases hf : (fetch_weather api_key env.http city).1 with _ | w <;> rw [hf] at he <;>
    dsimp only at he
  · simp at he
    rcases he with rfl | he
    · simp [isPut] at hput
    · rcases he with he | rfl
      · have hnp := fetch_events_no_put api_key city env.http e he
        rw [hnp] at hput; cases hput
      · simp [isPut] at hput
  · by_cases htr : w.truthy
    · rw [if_pos htr] at he
      rcases hd : (displayWeather w).2 with _ | err <;> rw [hd] at he
      · dsimp only at he
        simp at he
        rcases he with rfl | he
        · simp [isPut] at hput
        · rcases he with he | he
          · have hnp := fetch_events_no_put api_key city env.http e he
            rw [hnp] at hput; cases hput
          · rcases he with he | he
            · have hnp := displayWeather_no_put w e he
              rw [hnp] at hput; cases hput
            · exact save_events_put_key bucket city env.now env.putRes (some w) e he hput
      · rcases err with _ | _ | _ <;> dsimp only at he <;> simp at he
        · rcases he with rfl | he
          · simp [isPut] at hput
          · rcases he with he | he
            · have hnp := fetch_events_no_put api_key city env.http e he
              rw [hnp] at hput; cases hput
            · rcases he with he | rfl
              · have hnp := displayWeather_no_put w e he
                rw [hnp] at hput; cases hput
              · simp [isPut] at hput
        · rcases he with rfl | he
          · simp [isPut] at hput
          · rcases he with he | he
            · have hnp := fetch_events_no_put api_key city env.http e he
              rw [hnp] at hput; cases hput
            · rcases he with he | rfl
              · have hnp := displayWeather_no_put w e he
                rw [hnp] at hput; cases hput
              · simp [isPut] at hput
        · rcases he with rfl | he
          · simp [isPut] at hput
          · rcases he with he | he
            · have hnp := fetch_events_no_put api_key city env.http e he
              rw [hnp] at hput; cases hput
            · have hnp := displayWeather_no_put w e he
              rw [hnp] at hput; cases hput
    · rw [if_neg htr] at he
      dsimp only at he
      simp at he
      rcases he with rfl | he
      · simp [isPut] at hput
      · rcases he with he | rfl
        · have hnp := fetch_events_no_put api_key city env.http e he
          rw [hnp] at hput; cases hput
        · simp [isPut] at hput

theorem runCities_join (bucket api_key : String) (ps : List (String × CityEnv))
    (h : ∀ p ∈ ps, (processCity bucket api_key p.2 p.1).2 = none) :
    (runCities bucket api_key ps).1
      = (ps.map (fun p => (processCity bucket api_key p.2 p.1).1)).flatten := by
  induction ps with
  | nil => rfl
  | cons q rest ih =>
      rcases q with ⟨city, env⟩
      have hq : (processCity bucket api_key env city).2 = none := h _ (List.mem_cons_self _ _)
      have hrest : ∀ p ∈ rest, (processCity bucket api_key p.2 p.1).2 = none :=
        fun p hp => h p (List.mem_cons_of_mem _ hp)
      simp [runCities, hq, ih hrest]

/-- Claim C7: for every city whose fetch fails (`fetch_weather` returns
`None`), the loop iteration's whole trace is the header line, the GET
events and the failure report — in particular `save_to_s3` is never
reached (no `put_object`, no save-related print) — the iteration raises
nothing, and the loop proceeds with the remaining cities. -/
theorem fetch_failure_skips_save (bucket api_key city : String) (env : CityEnv)
    (rest : List (String × CityEnv))
    (h : (fetch_weather api_key env.http city).1 = none) :
    (processCity bucket api_key env city).1
      = Event.print ("\nFetching weather data for " ++ city ++ "...")
        :: (fetch_weather api_key env.http city).2
        ++ [Event.print ("Failed to fetch weather data for " ++ city ++ ".")]
    ∧ (processCity bucket api_key env city).2 = none
    ∧ (∀ e ∈ (processCity bucket api_key env city).1, isPut e = false)
    ∧ runCities bucket api_key ((city, env) :: rest)
        = ((processCity bucket api_key env city).1 ++ (runCities bucket api_key rest).1,
           (runCities bucket api_key rest).2) := by
  have htrace : (processCity bucket api_key env city).1
      = Event.print ("\nFetching weather data for " ++ city ++ "...")
        :: (fetch_weather api_key env.http city).2
        ++ [Event.print ("Failed to fetch weather data for " ++ city ++ ".")] := by
    simp only [processCity]
    rw [h]
  have herr : (processCity bucket api_key env city).2 = none := by
    simp only [processCity]
    rw [h]
  refine ⟨htrace, herr, ?_, ?_⟩
  · intro e he
    rw [htrace] at he
    rcases he with _ | ⟨_, he⟩
    · rfl
    · rcases List.mem_append.mp he with hf | hl
      · exact fetch_events_no_put api_key city env.http e hf
      · rcases hl with _ | ⟨_, hl⟩
        · rfl
        · cases hl
  · simp only [runCities]
    rw [herr]

theorem fetch_failure_skips_save_witness :
    (fetch_weather ("k")
        (CityEnv.mk (HttpResult.transportError ("conn refused")) (Except.ok ())
          (DateTime.mk 2026 10 12 3 4 5)).http ("Atlanta")).1 = none
    ∧ (processCity ("b") ("k")
        (CityEnv.mk (HttpResult.transportError ("conn refused")) (Except.ok ())
          (DateTime.mk 2026 10 12 3 4 5)) ("Atlanta")).2 = none :=
  ⟨rfl,
   (fetch_failure_skips_save ("b") ("k") ("Atlanta")
      (CityEnv.mk (HttpResult.transportError ("conn refused")) (Except.ok ())
        (DateTime.mk 2026 10 12 3 4 5)) [] rfl).2.1⟩

/-- Claim C9: when no iteration raises an uncaught exception, the run's
trace is the concatenation of the per-city traces in the order of the
fixed city list, and every archived-object event inside a city's trace
keys the object under that city's own name — so console lines and
object-creation events appear in exactly the configured order. -/
theorem cities_processed_in_order (bucket api_key : String) (envs : List CityEnv)
    (h : ∀ p ∈ cities.zip envs, (processCity bucket api_key p.2 p.1).2 = none) :
    (runCities bucket api_key (cities.zip envs)).1
      = ((cities.zip envs).map (fun p => (processCity bucket api_key p.2 p.1).1)).flatten
    ∧ ∀ p ∈ cities.zip envs, ∀ e ∈ (processCity bucket api_key p.2 p.1).1,
        isPut e = true →
        ∃ body, e = Event.putObject bucket
            ("weather-data/" ++ p.1 ++ "-" ++ strftimeYmdHMS p.2.now ++ ".json") body
            ("application/json") :=
  ⟨runCities_join bucket api_key _ h,
   fun p _ => processCity_put_key bucket api_key p.2 p.1⟩

/-- A concrete per-city environment used to instantiate run-level
theorems: the HTTP layer refuses the connection. -/
def wEnv : CityEnv :=
  CityEnv.mk (HttpResult.transportError ("conn refused")) (Except.ok ())
    (DateTime.mk 2026 10 12 3 4 5)

theorem cities_processed_in_order_witness :
    (∀ p ∈ cities.zip [wEnv, wEnv, wEnv], (processCity ("b") ("k") p.2 p.1).2 = none)
    ∧ (runCities ("b") ("k") (cities.zip [wEnv, wEnv, wEnv])).1
      = ((cities.zip [wEnv, wEnv, wEnv]).map (fun p => (processCity ("b") ("k") p.2 p.1).1)).flatten :=
  ⟨by decide, (cities_processed_in_order ("b") ("k") [wEnv, wEnv, wEnv] (by decide)).1⟩

/-- Claim C4 counterexample: a fetch that succeeds with status 200 and
body `\x7b\x7d` writes nothing and proceeds, but the line logged is the
fetch-failure line, not a structural-mismatch message: the trace
contains no `Unexpected response structure` print, because the empty
document is falsy and takes the `Failed to fetch` branch. -/
theorem empty_response_counterexample :
    (processCity ("b") ("k")
        (CityEnv.mk (HttpResult.response 200 (Json.obj [])) (Except.ok ())
          (DateTime.mk 2026 10 12 3 4 5)) ("Atlanta")).1
      = [Event.print ("\nFetching weather data for Atlanta..."),
         Event.httpGet base_url [("q", "Atlanta"), ("appid", "k"), ("units", "imperial")],
         Event.print ("Failed to fetch weather data for Atlanta.")]
    ∧ ((processCity ("b") ("k")
        (CityEnv.mk (HttpResult.response 200 (Json.obj [])) (Except.ok ())
          (DateTime.mk 2026 10 12 3 4 5)) ("Atlanta")).1.any isStructMismatch) = false
    ∧ ((processCity ("b") ("k")
        (CityEnv.mk (HttpResult.response 200 (Json.obj [])) (Except.ok ())
          (DateTime.mk 2026 10 12 3 4 5)) ("Atlanta")).1.any isPut) = false :=
  ⟨rfl, by decide, by decide⟩

/-- Claim C4 (amended): for a city whose fetch succeeds (status below
400) with response `\x7b\x7d` (missing `main`/`weather`), the loop
writes no object and proceeds to the next city, but the message logged
is the fetch-failure line `Failed to fetch weather data for ...`: the
empty document is falsy, so the code takes the fetch-failure branch and
never logs a structural-mismatch message for it. -/
theorem empty_response_skips_city (bucket api_key city : String) (putRes : Except String Unit)
    (now : DateTime) (st : Nat) (rest : List (String × CityEnv)) (h : st < 400) :
    (processCity bucket api_key (CityEnv.mk (HttpResult.response st (Json.obj [])) putRes now) city).1
      = [Event.print ("\nFetching weather data for " ++ city ++ "..."),
         Event.httpGet base_url [("q", city), ("appid", api_key), ("units", "imperial")],
         Event.print ("Failed to fetch weather data for " ++ city ++ ".")]
    ∧ (∀ e ∈ (processCity bucket api_key
          (CityEnv.mk (HttpResult.response st (Json.obj [])) putRes now) city).1,
        isPut e = false)
    ∧ (processCity bucket api_key
        (CityEnv.mk (HttpResult.response st (Json.obj [])) putRes now) city).2 = none
    ∧ runCities bucket api_key
        ((city, CityEnv.mk (HttpResult.response st (Json.obj [])) putRes now) :: rest)
        = ((processCity bucket api_key
              (CityEnv.mk (HttpResult.response st (Json.obj [])) putRes now) city).1
            ++ (runCities bucket api_key rest).1,
           (runCities bucket api_key rest).2) := by
  have h1 : ¬(400 ≤ st ∧ st < 500) := by omega
  have h2 : ¬(500 ≤ st ∧ st < 600) := by omega
  have hf : (fetch_weather api_key (HttpResult.response st (Json.obj [])) city).1
      = some (Json.obj []) := by
    simp [fetch_weather, raise_for_status, h1, h2]
  have hev : (fetch_weather api_key (HttpResult.response st (Json.obj [])) city).2
      = [Event.httpGet base_url [("q", city), ("appid", api_key), ("units", "imperial")]] := by
    simp [fetch_weather, raise_for_status, h1, h2]
  have htrace : (processCity bucket api_key
      (CityEnv.mk (HttpResult.response st (Json.obj [])) putRes now) city).1
      = [Event.print ("\nFetching weather data for " ++ city ++ "..."),
         Event.httpGet base_url [("q", city), ("appid", api_key), ("units", "imperial")],
         Event.print ("Failed to fetch weather data for " ++ city ++ ".")] := by
    simp [processCity, hf, hev, Json.truthy]
  have herr : (processCity bucket api_key
      (CityEnv.mk (HttpResult.response st (Json.obj [])) putRes now) city).2 = none := by
    simp [processCity, hf, Json.truthy]
  refine ⟨htrace, ?_, herr, ?_⟩
  · intro e he
    rw [htrace] at he
    rcases he with _ | ⟨_, he⟩
    · rfl
    · rcases he with _ | ⟨_, he⟩
      · rfl
      · rcases he with _ | ⟨_, he⟩
        · rfl
        · cases he
  · simp only [runCities]
    rw [herr]

theorem empty_response_skips_city_witness :
    200 < 400
    ∧ (processCity ("b") ("k")
        (CityEnv.mk (HttpResult.response 200 (Json.obj [])) (Except.ok ())
          (DateTime.mk 2026 10 12 3 4 5)) ("Atlanta")).2 = none :=
  ⟨by decide,
   (empty_response_skips_city ("b") ("k") ("Atlanta") (Except.ok ())
      (DateTime.mk 2026 10 12 3 4 5) 200 [] (by decide)).2.2.1⟩
